import Mathlib

/-!
Verification of the DeepMITRE validation/sanitization pipeline and its
rate-limited gateway, as a shallow embedding of src/utils.py and src/app.py.

Strings are manipulated through their underlying character lists so that every
definition is executable by the kernel.  Python floats are modelled as exact
rationals (Rat); the float NaN gets its own constructor since every comparison
against NaN is false in Python.  Machine-level concerns (UTF-8 encoding,
numpy dtypes beyond the object/numeric split) are outside the claims checked
here.
-/

namespace DeepMitre

/-- A single-quote character, used by Python's KeyError rendering
(str(KeyError("x")) is the repr of the key, with quotes). -/
def sq : String := String.singleton (Char.ofNat 39)

/-! ### Python scalar values

Values that can sit in a pandas cell once a mixed-dtype row has been boxed to
Python objects by DataFrame.iterrows (int64 cells box to Python int, float64
cells to Python float, text cells stay str). -/

inductive PyVal where
  | pyInt (n : Int)
  | pyFloat (q : Rat)
  | pyNan
  | pyStr (s : String)
  deriving DecidableEq, Repr

/-- Python str() of a cell value, as used by the f-string error messages and
by the str(...) coercions in sanitize_dataframe.  The claims only ever
evaluate this on pyStr and pyInt cells; the decimal rendering CPython uses
for floats is abstracted by the exact rational rendering. -/
def pyStrOf : PyVal → String
  | .pyInt n => toString n
  | .pyFloat q => toString q
  | .pyNan => "nan"
  | .pyStr s => s

/-! ### Markup stripping: re.sub(r'<[^>]*>', '', x)

re.sub scans left to right; at a '<' the pattern matches exactly when some '>'
occurs later (the match then ends at the first such '>'), and scanning resumes
after the removed span.  stripTagsGo implements that scan; the fuel argument
is only a structural-recursion bound and never runs out when it starts at the
length of the list (each step consumes at least one character). -/

def stripTagsGo : Nat → List Char → List Char
  | _, [] => []
  | 0, l => l
  | fuel + 1, c :: rest =>
    if c = '<' && rest.contains '>' then
      stripTagsGo fuel ((rest.dropWhile (fun d => d != '>')).tail)
    else
      c :: stripTagsGo fuel rest

def stripTags (s : String) : String := String.mk (stripTagsGo s.data.length s.data)

/-- Does the character list contain a substring matched by the tag pattern
<[^>]*>, i.e. a '<' with some '>' after it? -/
def hasTag : List Char → Bool
  | [] => false
  | c :: rest => (c = '<' && rest.contains '>') || hasTag rest

/-- Same test on a String. -/
def hasTagS (s : String) : Bool := hasTag s.data

lemma stripTagsGo_subset {fuel : Nat} {l : List Char} {a : Char}
    (h : a ∈ stripTagsGo fuel l) : a ∈ l := by
  induction fuel generalizing l with
  | zero => cases l with
    | nil => simp [stripTagsGo] at h
    | cons c rest => simpa [stripTagsGo] using h
  | succ fuel ih =>
    cases l with
    | nil => simp [stripTagsGo] at h
    | cons c rest =>
      by_cases hc : (c = '<' && rest.contains '>') = true
      · rw [stripTagsGo, if_pos hc] at h
        have h0 := ih h
        have h1 : a ∈ (rest.dropWhile (fun d => d != '>')) :=
          List.mem_of_mem_tail h0
        have h2 : a ∈ rest := (List.dropWhile_sublist _).mem h1
        exact List.mem_cons_of_mem _ h2
      · rw [stripTagsGo, if_neg hc] at h
        rcases List.mem_cons.mp h with h | h
        · simp [h]
        · exact List.mem_cons_of_mem _ (ih h)

/-- The output of the scan contains no remaining tag: any '<' that survives
has no '>' anywhere after it. -/
lemma hasTag_stripTagsGo (fuel : Nat) (l : List Char) (hfuel : l.length ≤ fuel) :
    hasTag (stripTagsGo fuel l) = false := by
  induction fuel generalizing l with
  | zero =>
    cases l with
    | nil => simp [stripTagsGo, hasTag]
    | cons c rest => simp at hfuel
  | succ fuel ih =>
    cases l with
    | nil => simp [stripTagsGo, hasTag]
    | cons c rest =>
      by_cases hc : (c = '<' && rest.contains '>') = true
      · rw [stripTagsGo, if_pos hc]
        apply ih
        have h1 : ((rest.dropWhile (fun d => d != '>')).tail).length ≤
            (rest.dropWhile (fun d => d != '>')).length := by
          cases rest.dropWhile (fun d => d != '>') with
          | nil => simp
          | cons x xs => simp
        have h2 : (rest.dropWhile (fun d => d != '>')).length ≤ rest.length :=
          (List.dropWhile_sublist _).length_le
        simp only [List.length_cons] at hfuel
        omega
      · rw [stripTagsGo, if_neg hc]
        rw [hasTag]
        have hrest : rest.length ≤ fuel := by
          simp only [List.length_cons] at hfuel; omega
        rw [ih rest hrest]
        simp only [Bool.or_false, Bool.and_eq_false_iff]
        by_cases h4 : c = '<'
        · right
          subst h4
          have hnogt : '>' ∉ rest := by
            intro hm
            exact hc (by simp [hm])
          have : '>' ∉ stripTagsGo fuel rest := fun hm => hnogt (stripTagsGo_subset hm)
          simpa using this
        · left
          simp [h4]

/-- On a tag-free list the scan is the identity, for every fuel value. -/
lemma stripTagsGo_of_hasTag_eq_false {l : List Char} (h : hasTag l = false)
    (fuel : Nat) : stripTagsGo fuel l = l := by
  induction l generalizing fuel with
  | nil => cases fuel <;> simp [stripTagsGo]
  | cons c rest ih =>
    rw [hasTag, Bool.or_eq_false_iff] at h
    cases fuel with
    | zero => simp [stripTagsGo]
    | succ fuel =>
      have hcond : ¬((c = '<' && rest.contains '>') = true) := by
        rw [h.1]; exact Bool.false_ne_true
      rw [stripTagsGo, if_neg hcond]
      rw [ih h.2 fuel]

/-- stripTags leaves no tag in its output. -/
lemma hasTagS_stripTags (s : String) : hasTagS (stripTags s) = false := by
  unfold hasTagS stripTags
  exact hasTag_stripTagsGo _ _ le_rfl

/-- stripTags is idempotent. -/
lemma stripTags_idem (s : String) : stripTags (stripTags s) = stripTags s := by
  unfold stripTags
  congr 1
  exact stripTagsGo_of_hasTag_eq_false (hasTag_stripTagsGo _ _ le_rfl) _

/-- stripTags of a tag-free string is the string itself. -/
lemma stripTags_of_hasTagS_eq_false {s : String} (h : hasTagS s = false) :
    stripTags s = s := by
  apply String.ext
  unfold stripTags
  exact stripTagsGo_of_hasTag_eq_false h _

/-! ### RateLimiter (src/utils.py)

State: a deque of call timestamps.  A gated attempt, under the lock, reads the
clock, pops expired timestamps from the head, rejects when the remaining count
has reached max_calls (raising before the wrapped function runs and without
recording a timestamp), and otherwise records now and runs the wrapped
function.  time.time() values are modelled as exact rationals. -/

structure RateLimiter where
  max_calls : Nat
  time_window : Rat
  calls : List Rat
  deriving DecidableEq, Repr

/-- The eviction loop: while calls and now - calls[0] >= time_window, popleft. -/
def RateLimiter.evict (rl : RateLimiter) (now : Rat) : List Rat :=
  rl.calls.dropWhile (fun t => rl.time_window ≤ now - t)

/-- One gated attempt of the wrapped function f at argument x, at clock value
now.  Returns the outcome (the raised message, or the wrapped call's result)
together with the limiter state after the attempt. -/
def RateLimiter.call {α β : Type} (rl : RateLimiter) (now : Rat)
    (f : α → β) (x : α) : Except String β × RateLimiter :=
  let remaining := rl.evict now
  if rl.max_calls ≤ remaining.length then
    (Except.error "Rate limit exceeded. Please try again later.",
     { rl with calls := remaining })
  else
    (Except.ok (f x), { rl with calls := remaining ++ [now] })

/-- The limiter's implicit state invariant: at most max_calls recorded
timestamps, in non-decreasing order (oldest at the head). -/
def RateLimiter.inv (rl : RateLimiter) : Prop :=
  rl.calls.length ≤ rl.max_calls ∧ rl.calls.Sorted (· ≤ ·)

/-! ### Character and column-name helpers

str.lower / str.strip as used on column names, restricted to the ASCII range
actually exercised by the schema (CPython lowers the full Unicode range). -/

def lowerChar (c : Char) : Char :=
  if 65 ≤ c.toNat ∧ c.toNat ≤ 90 then Char.ofNat (c.toNat + 32) else c

/-- Whitespace stripped by str.strip. -/
def isPySpace (c : Char) : Bool :=
  c = ' ' || c = '\t' || c = '\n' || c = '\r' || c = '\x0b' || c = '\x0c'

/-- Drop trailing characters satisfying isPySpace. -/
def trimRight : List Char → List Char
  | [] => []
  | c :: rest =>
    match trimRight rest with
    | [] => if isPySpace c then [] else [c]
    | r => c :: r

/-- str.strip: remove leading and trailing whitespace. -/
def trimPy (l : List Char) : List Char := trimRight (l.dropWhile isPySpace)

/-- column.lower().strip(): lower-case first, then strip. -/
def normName (s : String) : String := String.mk (trimPy (s.data.map lowerChar))

lemma lowerChar_idem (c : Char) : lowerChar (lowerChar c) = lowerChar c := by
  by_cases h : 65 ≤ c.toNat ∧ c.toNat ≤ 90
  · have hvalid : (c.toNat + 32).isValidChar := by left; omega
    have hval : (Char.ofNat (c.toNat + 32)).toNat = c.toNat + 32 := by
      rw [Char.ofNat, dif_pos hvalid]; rfl
    have h1 : lowerChar c = Char.ofNat (c.toNat + 32) := by
      unfold lowerChar; rw [if_pos h]
    calc lowerChar (lowerChar c)
        = lowerChar (Char.ofNat (c.toNat + 32)) := by rw [h1]
      _ = Char.ofNat (c.toNat + 32) := by
          unfold lowerChar; rw [if_neg (by rw [hval]; omega)]
      _ = lowerChar c := h1.symm
  · have h1 : lowerChar c = c := by unfold lowerChar; rw [if_neg h]
    rw [h1, h1]

lemma dropWhile_idem (p : α → Bool) (l : List α) :
    (l.dropWhile p).dropWhile p = l.dropWhile p := by
  induction l with
  | nil => simp
  | cons a rest ih =>
    by_cases h : p a = true
    · rw [List.dropWhile_cons_of_pos h, ih]
    · rw [List.dropWhile_cons_of_neg h, List.dropWhile_cons_of_neg h]

lemma trimRight_subset {l : List Char} {a : Char} (h : a ∈ trimRight l) : a ∈ l := by
  induction l with
  | nil => simp [trimRight] at h
  | cons c rest ih =>
    rw [trimRight] at h
    rcases h2 : trimRight rest with _ | ⟨r, rs⟩
    · rw [h2] at h
      by_cases h3 : isPySpace c = true
      · rw [if_pos h3] at h; simp at h
      · rw [if_neg h3] at h
        simp at h
        simp [h]
    · rw [h2] at h
      rcases List.mem_cons.mp h with h | h
      · simp [h]
      · exact List.mem_cons_of_mem _ (ih (by rw [h2]; exact h))

lemma trimRight_idem (l : List Char) : trimRight (trimRight l) = trimRight l := by
  induction l with
  | nil => simp [trimRight]
  | cons c rest ih =>
    rw [trimRight]
    rcases h2 : trimRight rest with _ | ⟨r, rs⟩
    · by_cases h3 : isPySpace c = true
      · rw [if_pos h3]; simp [trimRight]
      · rw [if_neg h3]; simp [trimRight, h3]
    · rw [trimRight]
      rw [h2] at ih
      rw [ih]

lemma dropWhile_trimRight {p : Char → Bool} {l : List Char}
    (h : l.dropWhile p = l) : (trimRight l).dropWhile p = trimRight l := by
  cases l with
  | nil => simp [trimRight]
  | cons c rest =>
    have hc : p c = false := by
      by_cases h3 : p c = true
      · rw [List.dropWhile_cons_of_pos h3] at h
        have := congrArg List.length h
        have h4 := (List.dropWhile_sublist (l := rest) p).length_le
        simp at this
        omega
      · simpa using h3
    rw [trimRight]
    rcases trimRight rest with _ | ⟨r, rs⟩
    · by_cases h3 : isPySpace c = true
      · rw [if_pos h3]; simp
      · rw [if_neg h3]
        rw [List.dropWhile_cons_of_neg (by simp [hc])]
    · rw [List.dropWhile_cons_of_neg (by simp [hc])]

lemma trimPy_idem (l : List Char) : trimPy (trimPy l) = trimPy l := by
  unfold trimPy
  rw [dropWhile_trimRight (dropWhile_idem isPySpace l), trimRight_idem]

lemma map_eq_self_of_mem {f : α → α} {l : List α} (h : ∀ a ∈ l, f a = a) :
    l.map f = l := by
  induction l with
  | nil => rfl
  | cons a rest ih =>
    rw [List.map_cons, h a (by simp), ih (fun b hb => h b (List.mem_cons_of_mem _ hb))]

/-! ### Field validators (NetflowValidator, src/utils.py)

validate_ip defers to the stdlib ipaddress.ip_address parser (IPv4 tried
first, then IPv6); the acceptance conditions of CPython's parsers are encoded
below (scoped IPv6 zone suffixes are not modelled, no claim exercises them).
validate_timestamp defers to datetime.strptime over the three accepted
formats; the digit-run grammar of CPython's TimeRE plus the constructor's
calendar check are encoded below. -/

/-- str.split for a single-character separator. -/
def splitOnC (sep : Char) : List Char → List (List Char)
  | [] => [[]]
  | c :: rest =>
    let r := splitOnC sep rest
    if c = sep then [] :: r
    else
      match r with
      | [] => [[c]]
      | g :: gs => (c :: g) :: gs

/-- Decimal digit-run value (ASCII only), none when empty or non-digit. -/
def digitsToNat : List Char → Option Nat
  | l =>
    if l ≠ [] ∧ l.all Char.isDigit then
      some (l.foldl (fun a c => 10 * a + (c.toNat - 48)) 0)
    else
      none

def isHexDigitChar (c : Char) : Bool :=
  c.isDigit || (97 ≤ c.toNat && c.toNat ≤ 102) || (65 ≤ c.toNat && c.toNat ≤ 70)

/-- One dotted-quad octet: 1-3 ASCII digits, no leading zero unless the octet
is the single digit 0, value at most 255. -/
def validOctet (l : List Char) : Bool :=
  match digitsToNat l with
  | some v =>
    l.length ≤ 3 && (l.length = 1 || l.headD '0' != '0') && v ≤ 255
  | none => false

/-- CPython ipaddress.IPv4Address acceptance. -/
def isIPv4 (l : List Char) : Bool :=
  match splitOnC '.' l with
  | [a, b, c, d] => validOctet a && validOctet b && validOctet c && validOctet d
  | _ => false

/-- One hextet: 1-4 hex digits. -/
def validHextet (l : List Char) : Bool :=
  l.length ≥ 1 && l.length ≤ 4 && l.all isHexDigitChar

/-- The hextet-sequence acceptance of CPython ipaddress.IPv6Address: at most
one empty interior part (the double-colon marker), an empty first or last
part only directly next to it, every other part a hextet, and the double
colon standing for at least one zero group (without it, exactly 8 parts). -/
def isIPv6Core (ps : List (List Char)) : Bool :=
  let n := ps.length
  let skips := (List.range n).filter (fun i => 0 < i && i < n - 1 && (ps.getD i [' ']).isEmpty)
  match skips with
  | [] => n = 8 && ps.all validHextet
  | [i] =>
    let hi := if (ps.headD [' ']).isEmpty then (if i - 1 = 0 then some 0 else none)
              else some i
    let lo := if (ps.getLastD [' ']).isEmpty then (if n - i - 2 = 0 then some 0 else none)
              else some (n - i - 1)
    match hi, lo with
    | some h, some w =>
      h + w + 1 ≤ 8 && (ps.take h).all validHextet && (ps.drop (n - w)).all validHextet
    | _, _ => false
  | _ => false

/-- CPython ipaddress.IPv6Address acceptance (zone suffixes not modelled):
split on a colon; at least 3 parts; a trailing dotted quad counts as two
hextets; then the hextet-sequence check. -/
def isIPv6 (l : List Char) : Bool :=
  let ps0 := splitOnC ':' l
  if ps0.length < 3 then false
  else
    let lastP := ps0.getLastD []
    if lastP.contains '.' then
      if isIPv4 lastP then isIPv6Core (ps0.dropLast ++ [['0'], ['0']]) else false
    else
      isIPv6Core ps0

/-- ipaddress.ip_address(ip) succeeds: IPv4 grammar, then IPv6. -/
def validate_ip (ip : String) : Bool := isIPv4 ip.data || isIPv6 ip.data

/-- isinstance(port, (int, float)) and PORT_MIN <= port <= PORT_MAX.
Every comparison against NaN is false in Python. -/
def validate_port (port : PyVal) : Bool :=
  match port with
  | .pyInt n => decide (0 ≤ n ∧ n ≤ 65535)
  | .pyFloat q => decide (0 ≤ q ∧ q ≤ 65535)
  | .pyNan => false
  | .pyStr _ => false

/-- Leap-year rule and month lengths of the proleptic Gregorian calendar used
by datetime. -/
def isLeapYear (y : Nat) : Bool := y % 4 = 0 && (y % 100 ≠ 0 || y % 400 = 0)

def daysInMonth (y m : Nat) : Nat :=
  if m = 2 then (if isLeapYear y then 29 else 28)
  else if m = 4 || m = 6 || m = 9 || m = 11 then 30
  else 31

/-- datetime.strptime(s, fmt) succeeds for a format Y sepD m sepD d sepT
H:M:S: the TimeRE digit-run grammar (year exactly 4 digits, other fields 1-2
digits within range) followed by the datetime constructor's calendar check.
Seconds 60 and 61 pass the regex but are rejected by the constructor, so the
net bound is 59. -/
def matchesFormat (sepD sepT : Char) (l : List Char) : Bool :=
  match splitOnC sepT l with
  | [d, t] =>
    match splitOnC sepD d, splitOnC ':' t with
    | [ys, ms, ds], [hs, mins, ss] =>
      match digitsToNat ys, digitsToNat ms, digitsToNat ds,
            digitsToNat hs, digitsToNat mins, digitsToNat ss with
      | some y, some mo, some dd, some h, some mi, some s =>
        ys.length = 4 && 1 ≤ y &&
        ms.length ≤ 2 && 1 ≤ mo && mo ≤ 12 &&
        ds.length ≤ 2 && 1 ≤ dd && dd ≤ daysInMonth y mo &&
        hs.length ≤ 2 && h ≤ 23 &&
        mins.length ≤ 2 && mi ≤ 59 &&
        ss.length ≤ 2 && s ≤ 59
      | _, _, _, _, _, _ => false
    | _, _ => false
  | _ => false

/-- The three TIMESTAMP_FORMATS, tried in order (first match wins). -/
def validate_timestamp (timestamp : String) : Bool :=
  matchesFormat '-' ' ' timestamp.data ||
  matchesFormat '-' 'T' timestamp.data ||
  matchesFormat '/' ' ' timestamp.data

/-- isinstance(value, (int, float)) and value >= 0. -/
def validate_numeric (value : PyVal) : Bool :=
  match value with
  | .pyInt n => decide (0 ≤ n)
  | .pyFloat q => decide (0 ≤ q)
  | .pyNan => false
  | .pyStr _ => false

example : validate_ip "10.0.0.1" = true := by decide
example : validate_ip "999.999.999.999" = false := by decide
example : validate_ip "not-an-ip" = false := by decide
example : validate_ip "2001:db8::1" = true := by decide
example : validate_ip "::1" = true := by decide
example : validate_ip "::" = true := by decide
example : validate_ip "1:2:3:4:5:6:7:8" = true := by decide
example : validate_ip "1:2:3:4:5:6:7:8:9" = false := by decide
example : validate_ip "1:2:3:4::5:6:7:8" = false := by decide
example : validate_ip "::ffff:192.168.0.1" = true := by decide
example : validate_ip "01.2.3.4" = false := by decide
example : validate_timestamp "2024-01-02 03:04:05" = true := by decide
example : validate_timestamp "2024-01-02T03:04:05" = true := by decide
example : validate_timestamp "2024/01/02 03:04:05" = true := by decide
example : validate_timestamp "13/01/2024" = false := by decide
example : validate_timestamp "2023-02-29 00:00:00" = false := by decide
example : validate_timestamp "2024-02-29 00:00:00" = true := by decide
example : validate_timestamp "2024-1-2 3:4:5" = true := by decide
example : validate_timestamp "2024-01-02 03:04:60" = false := by decide

lemma normName_idem (s : String) : normName (normName s) = normName s := by
  apply String.ext
  show trimPy ((trimPy (s.data.map lowerChar)).map lowerChar) = trimPy (s.data.map lowerChar)
  have h1 : (trimPy (s.data.map lowerChar)).map lowerChar = trimPy (s.data.map lowerChar) := by
    apply map_eq_self_of_mem
    intro a ha
    have h2 : a ∈ s.data.map lowerChar := by
      unfold trimPy at ha
      exact (List.dropWhile_sublist _).mem (trimRight_subset ha)
    rcases List.mem_map.mp h2 with ⟨b, _, rfl⟩
    exact lowerChar_idem b
  rw [h1, trimPy_idem]

/-! ### The tabular model

A DataFrame is a list of columns; a column carries its pandas dtype collapsed
to the split the code acts on: object (text) columns versus numeric ones.
CSV ingestion always yields rectangular frames; rows are read off column-wise
exactly as DataFrame.iterrows serves them. -/

inductive Dtype where
  | object
  | numeric
  deriving DecidableEq, Repr

structure Column where
  name : String
  dtype : Dtype
  cells : List PyVal
  deriving DecidableEq, Repr

abbrev DataFrame := List Column

/-- len(df): the length of the (shared) column index. -/
def nRows (df : DataFrame) : Nat :=
  match df with
  | [] => 0
  | c :: _ => c.cells.length

/-- The row served by iterrows at position idx: the Series mapping each
column name to that column's cell. -/
def rowAt (df : DataFrame) (idx : Nat) : List (String × PyVal) :=
  df.filterMap (fun c => (c.cells.get? idx).map (fun v => (c.name, v)))

/-- row[field]: label lookup in the row Series; none models the KeyError. -/
def lookupRow (row : List (String × PyVal)) (field : String) : Option PyVal :=
  List.lookup field row

/-- clean_df.rename(columns={column: column.lower().strip()}) over every
column. -/
def renameCol (c : Column) : Column := { c with name := normName c.name }

def renameCols (df : DataFrame) : DataFrame := df.map renameCol

/-- clean_df[col] = clean_df[col].astype(str).apply(lambda x: re.sub(...)),
applied to the object-dtype (string) columns only. -/
def stripCol (c : Column) : Column :=
  if c.dtype = Dtype.object then
    { c with cells := c.cells.map (fun v => PyVal.pyStr (stripTags (pyStrOf v))) }
  else c

def stripStringCols (df : DataFrame) : DataFrame := df.map stripCol

/-! ### Per-row validation

The try block of sanitize_dataframe runs the checks in source order; the
first field whose lookup raises KeyError aborts the row's remaining checks
and appends one missing-column message (whose field name carries the quotes
of the exception's repr). -/

inductive FieldCheck where
  | ipCheck (desc : String)
  | portCheck (desc : String)
  | tsCheck
  | numCheck (field : String)
  deriving DecidableEq, Repr

/-- The checks of the try block, in source order; the last five are the
numeric_fields loop. -/
def checkList : List (String × FieldCheck) :=
  [("src_ip", .ipCheck "source"),
   ("dest_ip", .ipCheck "destination"),
   ("src_port", .portCheck "source"),
   ("dest_port", .portCheck "destination"),
   ("timestamp", .tsCheck),
   ("flow_dur", .numCheck "flow_dur"),
   ("fwd_bytes", .numCheck "fwd_bytes"),
   ("bwd_bytes", .numCheck "bwd_bytes"),
   ("total_bwd_pkts", .numCheck "total_bwd_pkts"),
   ("total_fwd_pkts", .numCheck "total_fwd_pkts")]

/-- The error message a failed check appends (f-strings render values with
str). -/
def checkError (idx : Nat) (c : FieldCheck) (v : PyVal) : Option String :=
  match c with
  | .ipCheck desc =>
    if validate_ip (pyStrOf v) then none
    else some ("Invalid " ++ desc ++ " IP at row " ++ toString idx ++ ": " ++ pyStrOf v)
  | .portCheck desc =>
    if validate_port v then none
    else some ("Invalid " ++ desc ++ " port at row " ++ toString idx ++ ": " ++ pyStrOf v)
  | .tsCheck =>
    if validate_timestamp (pyStrOf v) then none
    else some ("Invalid timestamp at row " ++ toString idx ++ ": " ++ pyStrOf v)
  | .numCheck field =>
    if validate_numeric v then none
    else some ("Invalid " ++ field ++ " at row " ++ toString idx ++ ": " ++ pyStrOf v)

/-- errors.append(f"Missing required column: {str(e)}"): str of a KeyError is
the repr of the missing key, quotes included. -/
def missingMsg (field : String) : String :=
  "Missing required column: " ++ sq ++ field ++ sq

/-- Run the remaining checks of one row: each field is looked up; a failed
lookup (KeyError) ends the row with its missing-column message, a failed
check appends its message and the row continues. -/
def validateRowAux (idx : Nat) (row : List (String × PyVal)) :
    List (String × FieldCheck) → List String
  | [] => []
  | (field, c) :: rest =>
    match lookupRow row field with
    | none => [missingMsg field]
    | some v =>
      match checkError idx c v with
      | none => validateRowAux idx row rest
      | some e => e :: validateRowAux idx row rest

def validateRow (idx : Nat) (row : List (String × PyVal)) : List String :=
  validateRowAux idx row checkList

/-- sanitize_dataframe: copy, normalize the column names, validate each row of
the renamed frame, then strip markup from the string columns; returns the
sanitized frame and the collected error strings. -/
def sanitize_dataframe (df : DataFrame) : DataFrame × List String :=
  let clean0 := renameCols df
  let errors := (List.range (nRows clean0)).flatMap (fun i => validateRow i (rowAt clean0 i))
  (stripStringCols clean0, errors)

example :
    (sanitize_dataframe
      [Column.mk "Payload " Dtype.object [PyVal.pyStr "<script>alert(1)</script>benign"]]).1 =
    [Column.mk "payload" Dtype.object [PyVal.pyStr "alert(1)benign"]] := by decide

/-! ### The gateway and the upload flow (src/app.py) -/

inductive Json where
  | num (q : Rat)
  | str (s : String)
  | nan
  | arr (xs : List Json)
  | obj (fields : List (String × Json))

/-- requests' JSON serialization of a cell value (json.dumps renders the float
NaN as a bare NaN token, kept as its own constructor). -/
def pyToJson : PyVal → Json
  | .pyInt n => Json.num n
  | .pyFloat q => Json.num q
  | .pyNan => Json.nan
  | .pyStr s => Json.str s

/-- One dict of df.to_dict(orient=records), serialized. -/
def recordToJson (r : List (String × PyVal)) : Json :=
  Json.obj (r.map (fun p => (p.1, pyToJson p.2)))

/-- Length of a top-level JSON array. -/
def jsonTopLen : Json → Nat
  | .arr xs => xs.length
  | _ => 0

structure HttpRequest where
  headers : List (String × String)
  body : Json

/-- The headers literal of call_serve_api.  The Authorization value comes from
the f-string "Bearer f{key_data}", so the credential is preceded by a stray
f character. -/
def callServeApiHeaders (key_data : String) : List (String × String) :=
  [("Authorization", "Bearer f" ++ key_data),
   ("Content-Type", "application/json")]

/-- The POST a successful call_serve_api(input_data) issues:
requests.post(SERVING_API, headers=headers, json=[input_data]) — the body is
the one-element array wrapping the serialized record list. -/
def serveApiRequest (key_data : String) (input_data : List (List (String × PyVal))) :
    HttpRequest :=
  { headers := callServeApiHeaders key_data,
    body := Json.arr [Json.arr (input_data.map recordToJson)] }

/-- call_serve_api is decorated by api_rate_limiter: the attempt is gated,
and only an admitted attempt builds and sends the request. -/
def call_serve_api (key_data : String) (rl : RateLimiter) (now : Rat)
    (input_data : List (List (String × PyVal))) : Except String HttpRequest × RateLimiter :=
  RateLimiter.call rl now (serveApiRequest key_data) input_data

def REQUIRED_COLUMNS : List String :=
  ["timestamp", "flow_dur", "src_ip", "dest_ip", "dest_port", "src_port",
   "fwd_bytes", "bwd_bytes", "total_bwd_pkts", "total_fwd_pkts"]

/-- str.lower() as applied by df.columns.str.lower() and col.lower(). -/
def strLower (s : String) : String := String.mk (s.data.map lowerChar)

/-- [row for row in df.to_dict(orient=records)]. -/
def records (df : DataFrame) : List (List (String × PyVal)) :=
  (List.range (nRows df)).map (rowAt df)

structure AppResult where
  table : DataFrame
  errors : List String
  requests : List HttpRequest
  limiter : RateLimiter

/-- The post-upload control flow of app.py on an already-parsed CSV frame:
sanitize, build the records payload, reject when a required column is missing
from the (case-folded) columns, reject when the frame exceeds 100 rows, and
otherwise make the single gated gateway call.  The requests field collects
every HTTP request actually issued. -/
def appProcess (key_data : String) (df : DataFrame) (rl : RateLimiter) (now : Rat) :
    AppResult :=
  let sanitized := sanitize_dataframe df
  let payload := records sanitized.1
  let missing_columns := REQUIRED_COLUMNS.filter
    (fun col => !((sanitized.1.map (fun c => strLower c.name)).contains (strLower col)))
  if missing_columns = [] then
    if nRows sanitized.1 ≤ 100 then
      match call_serve_api key_data rl now payload with
      | (Except.ok req, rl2) =>
        { table := sanitized.1, errors := sanitized.2, requests := [req], limiter := rl2 }
      | (Except.error _, rl2) =>
        { table := sanitized.1, errors := sanitized.2, requests := [], limiter := rl2 }
    else
      { table := sanitized.1, errors := sanitized.2, requests := [], limiter := rl }
  else
    { table := sanitized.1, errors := sanitized.2, requests := [], limiter := rl }

/-! ### A two-binding store for the copy-on-write shape of sanitize_dataframe

The body of sanitize_dataframe mutates in place (rename with inplace=True,
column assignment), but every one of those mutations targets clean_df, the
deep copy produced by df.copy(); the caller's binding df is never a target.
The store holds both bindings and each step rewrites only the one the source
line assigns to. -/

structure SanitizeStore where
  df : DataFrame
  clean_df : DataFrame

/-- clean_df = df.copy() (a deep copy: the bindings share no data). -/
def stepCopy (df0 : DataFrame) : SanitizeStore := { df := df0, clean_df := df0 }

/-- The rename loop, inplace=True on clean_df. -/
def stepRename (st : SanitizeStore) : SanitizeStore :=
  { st with clean_df := renameCols st.clean_df }

/-- The string-column assignment loop on clean_df. -/
def stepStrip (st : SanitizeStore) : SanitizeStore :=
  { st with clean_df := stripStringCols st.clean_df }

/-- The mutations of sanitize_dataframe run on the store. -/
def sanitizeRun (df0 : DataFrame) : SanitizeStore :=
  stepStrip (stepRename (stepCopy df0))

/-! ### Concrete frames used by witnesses and counterexamples -/

/-- A well-formed 5-row upload: every required column present (modulo case
and padding), every value valid. -/
def exampleDf : DataFrame :=
  [Column.mk "Timestamp"
     Dtype.object
     [PyVal.pyStr "2024-01-02 03:04:05", PyVal.pyStr "2024-01-02 03:04:06",
      PyVal.pyStr "2024-01-02T03:04:07", PyVal.pyStr "2024/01/02 03:04:08",
      PyVal.pyStr "2024-02-29 03:04:09"],
   Column.mk "flow_dur" Dtype.numeric
     [PyVal.pyInt 1, PyVal.pyInt 3, PyVal.pyInt 0, PyVal.pyInt 7, PyVal.pyInt 2],
   Column.mk " src_ip" Dtype.object
     [PyVal.pyStr "10.0.0.1", PyVal.pyStr "10.0.0.2", PyVal.pyStr "192.168.1.3",
      PyVal.pyStr "172.16.0.4", PyVal.pyStr "8.8.8.8"],
   Column.mk "dest_ip" Dtype.object
     [PyVal.pyStr "10.1.0.1", PyVal.pyStr "10.1.0.2", PyVal.pyStr "10.1.0.3",
      PyVal.pyStr "2001:db8::1", PyVal.pyStr "10.1.0.5"],
   Column.mk "dest_port" Dtype.numeric
     [PyVal.pyInt 443, PyVal.pyInt 80, PyVal.pyInt 53, PyVal.pyInt 22, PyVal.pyInt 8080],
   Column.mk "src_port" Dtype.numeric
     [PyVal.pyInt 50000, PyVal.pyInt 50001, PyVal.pyInt 50002, PyVal.pyInt 0,
      PyVal.pyInt 65535],
   Column.mk "fwd_bytes" Dtype.numeric
     [PyVal.pyInt 100, PyVal.pyInt 200, PyVal.pyInt 0, PyVal.pyInt 5, PyVal.pyInt 9],
   Column.mk "bwd_bytes" Dtype.numeric
     [PyVal.pyInt 10, PyVal.pyInt 20, PyVal.pyInt 30, PyVal.pyInt 0, PyVal.pyInt 1],
   Column.mk "total_bwd_pkts" Dtype.numeric
     [PyVal.pyInt 1, PyVal.pyInt 2, PyVal.pyInt 3, PyVal.pyInt 4, PyVal.pyInt 5],
   Column.mk "total_fwd_pkts" Dtype.numeric
     [PyVal.pyInt 5, PyVal.pyInt 4, PyVal.pyInt 3, PyVal.pyInt 2, PyVal.pyInt 1]]

/-- The requests issued by the upload flow, reduced to the top-level lengths
of their JSON bodies. -/
def appRequestBodyLens (key_data : String) (df : DataFrame) : List Nat :=
  (appProcess key_data df (RateLimiter.mk 100 60 []) 0).requests.map
    (fun r => jsonTopLen r.body)

/-- A 2-row upload whose frame lacks the dest_port column; its remaining
values are valid. -/
def missingColDf : DataFrame :=
  [Column.mk "timestamp" Dtype.object
     [PyVal.pyStr "2024-01-02 03:04:05", PyVal.pyStr "2024-01-02 03:04:06"],
   Column.mk "flow_dur" Dtype.numeric [PyVal.pyInt 1, PyVal.pyInt 2],
   Column.mk "src_ip" Dtype.object [PyVal.pyStr "10.0.0.1", PyVal.pyStr "10.0.0.2"],
   Column.mk "dest_ip" Dtype.object [PyVal.pyStr "10.1.0.1", PyVal.pyStr "10.1.0.2"],
   Column.mk "src_port" Dtype.numeric [PyVal.pyInt 50000, PyVal.pyInt 50001],
   Column.mk "fwd_bytes" Dtype.numeric [PyVal.pyInt 100, PyVal.pyInt 200],
   Column.mk "bwd_bytes" Dtype.numeric [PyVal.pyInt 10, PyVal.pyInt 20],
   Column.mk "total_bwd_pkts" Dtype.numeric [PyVal.pyInt 1, PyVal.pyInt 2],
   Column.mk "total_fwd_pkts" Dtype.numeric [PyVal.pyInt 5, PyVal.pyInt 4]]

/-! ### Claims about the rate limiter -/

/-- C3: with max_calls=2 and time_window=60, two guarded calls within the
window succeed, a third within the same window fails with the rate-limit
error, and a further call made more than time_window seconds after the
earlier ones succeeds again. -/
theorem C3_rate_limiter_window {α β : Type} (t1 t2 t3 t4 : Rat) (f : α → β) (x : α)
    (h12 : t1 ≤ t2) (h23 : t2 ≤ t3) (h31 : t3 - t1 < 60) (h42 : 60 < t4 - t2) :
    RateLimiter.call (RateLimiter.mk 2 60 []) t1 f x =
      (Except.ok (f x), RateLimiter.mk 2 60 [t1]) ∧
    RateLimiter.call (RateLimiter.mk 2 60 [t1]) t2 f x =
      (Except.ok (f x), RateLimiter.mk 2 60 [t1, t2]) ∧
    RateLimiter.call (RateLimiter.mk 2 60 [t1, t2]) t3 f x =
      (Except.error "Rate limit exceeded. Please try again later.",
       RateLimiter.mk 2 60 [t1, t2]) ∧
    RateLimiter.call (RateLimiter.mk 2 60 [t1, t2]) t4 f x =
      (Except.ok (f x), RateLimiter.mk 2 60 [t4]) := by
  have h21 : ¬ ((60 : Rat) ≤ t2 - t1) := by linarith
  have h31n : ¬ ((60 : Rat) ≤ t3 - t1) := by linarith
  have h41 : (60 : Rat) ≤ t4 - t1 := by linarith
  have h42w : (60 : Rat) ≤ t4 - t2 := le_of_lt h42
  have e1 : RateLimiter.call (RateLimiter.mk 2 60 []) t1 f x =
      (Except.ok (f x), RateLimiter.mk 2 60 [t1]) := by
    simp [RateLimiter.call, RateLimiter.evict]
  have e2 : RateLimiter.call (RateLimiter.mk 2 60 [t1]) t2 f x =
      (Except.ok (f x), RateLimiter.mk 2 60 [t1, t2]) := by
    simp only [RateLimiter.call, RateLimiter.evict]
    rw [List.dropWhile_cons_of_neg (by simpa using h21)]
    simp
  have e3 : RateLimiter.call (RateLimiter.mk 2 60 [t1, t2]) t3 f x =
      (Except.error "Rate limit exceeded. Please try again later.",
       RateLimiter.mk 2 60 [t1, t2]) := by
    simp only [RateLimiter.call, RateLimiter.evict]
    rw [List.dropWhile_cons_of_neg (by simpa using h31n)]
    simp
  have e4 : RateLimiter.call (RateLimiter.mk 2 60 [t1, t2]) t4 f x =
      (Except.ok (f x), RateLimiter.mk 2 60 [t4]) := by
    simp only [RateLimiter.call, RateLimiter.evict]
    rw [List.dropWhile_cons_of_pos (by simpa using h41),
        List.dropWhile_cons_of_pos (by simpa using h42w)]
    simp
  exact ⟨e1, e2, e3, e4⟩

/-- C3 witness: the schedule 0, 1, 2, 62 realizes the scenario. -/
theorem C3_rate_limiter_window_witness :
    RateLimiter.call (RateLimiter.mk 2 60 []) 0 (fun n : Nat => n + 1) 5 =
      (Except.ok 6, RateLimiter.mk 2 60 [0]) ∧
    RateLimiter.call (RateLimiter.mk 2 60 [0]) 1 (fun n : Nat => n + 1) 5 =
      (Except.ok 6, RateLimiter.mk 2 60 [0, 1]) ∧
    RateLimiter.call (RateLimiter.mk 2 60 [0, 1]) 2 (fun n : Nat => n + 1) 5 =
      (Except.error "Rate limit exceeded. Please try again later.",
       RateLimiter.mk 2 60 [0, 1]) ∧
    RateLimiter.call (RateLimiter.mk 2 60 [0, 1]) 62 (fun n : Nat => n + 1) 5 =
      (Except.ok 6, RateLimiter.mk 2 60 [62]) :=
  C3_rate_limiter_window 0 1 2 62 (fun n : Nat => n + 1) 5
    (by norm_num) (by norm_num) (by norm_num) (by norm_num)

/-- C4: a rejected gated attempt (post-eviction count at or above max_calls)
raises the rate-limit failure, never invokes the wrapped function (the
outcome is the same for every wrapped function), and appends no timestamp:
the state keeps exactly the post-eviction sequence. -/
theorem C4_rejection_frame {α β : Type} (rl : RateLimiter) (now : Rat)
    (f g : α → β) (x : α) (h : rl.max_calls ≤ (rl.evict now).length) :
    (RateLimiter.call rl now f x).1 =
      Except.error "Rate limit exceeded. Please try again later." ∧
    (RateLimiter.call rl now f x).2.calls = rl.evict now ∧
    RateLimiter.call rl now f x = RateLimiter.call rl now g x := by
  simp only [RateLimiter.call]
  rw [if_pos h, if_pos h]
  exact ⟨rfl, rfl, rfl⟩

/-- C4 witness: a saturated limiter (max_calls=1, one fresh timestamp)
rejects at clock 10 and keeps its state. -/
theorem C4_rejection_frame_witness :
    (RateLimiter.call (RateLimiter.mk 1 60 [0]) 10 (fun n : Nat => n) 0).1 =
      Except.error "Rate limit exceeded. Please try again later." ∧
    (RateLimiter.call (RateLimiter.mk 1 60 [0]) 10 (fun n : Nat => n) 0).2.calls =
      RateLimiter.evict (RateLimiter.mk 1 60 [0]) 10 ∧
    RateLimiter.call (RateLimiter.mk 1 60 [0]) 10 (fun n : Nat => n) 0 =
      RateLimiter.call (RateLimiter.mk 1 60 [0]) 10 (fun n : Nat => n + 7) 0 :=
  C4_rejection_frame (RateLimiter.mk 1 60 [0]) 10 (fun n : Nat => n)
    (fun n : Nat => n + 7) 0
    (by
      have h : RateLimiter.evict (RateLimiter.mk 1 60 [0]) 10 = [0] := by
        simp only [RateLimiter.evict]
        rw [List.dropWhile_cons_of_neg (by simp only [decide_eq_true_eq]; norm_num)]
      rw [h]
      decide)

/-- C10: the limiter invariant — at most max_calls timestamps, in
non-decreasing order — is preserved by every gated attempt, admitted or
rejected, as long as the clock does not run backwards past recorded
timestamps. -/
theorem C10_invariant_preserved {α β : Type} (rl : RateLimiter) (now : Rat)
    (f : α → β) (x : α) (hinv : rl.inv) (hmono : ∀ t ∈ rl.calls, t ≤ now) :
    (RateLimiter.call rl now f x).2.inv := by
  have hsub : (rl.evict now).Sublist rl.calls := List.dropWhile_sublist _
  have hsorted : (rl.evict now).Sorted (· ≤ ·) := hinv.2.sublist hsub
  have hlen : (rl.evict now).length ≤ rl.calls.length := hsub.length_le
  simp only [RateLimiter.call]
  by_cases h : rl.max_calls ≤ (rl.evict now).length
  · rw [if_pos h]
    exact ⟨le_trans hlen hinv.1, hsorted⟩
  · rw [if_neg h]
    refine ⟨?_, ?_⟩
    · simp only [List.length_append, List.length_singleton]
      omega
    · rw [List.Sorted, List.pairwise_append]
      refine ⟨hsorted, List.pairwise_singleton _ _, ?_⟩
      intro a ha b hb
      rw [List.mem_singleton] at hb
      subst hb
      exact hmono a (hsub.mem ha)

/-- C10 witness: a full, sorted limiter state at clock 100. -/
theorem C10_invariant_preserved_witness :
    (RateLimiter.call (RateLimiter.mk 2 60 [1, 2]) 100 (fun n : Nat => n) 0).2.inv :=
  C10_invariant_preserved (RateLimiter.mk 2 60 [1, 2]) 100 (fun n : Nat => n) 0
    (by
      refine ⟨by decide, ?_⟩
      simp only [List.sorted_cons, List.mem_cons, List.mem_singleton]
      norm_num)
    (by
      intro t ht
      simp only [List.mem_cons, List.mem_singleton] at ht
      rcases ht with rfl | rfl | h
      · norm_num
      · norm_num
      · simp at h)

/-! ### Claims about the field validators and the gateway headers -/

/-- C6: validate_port accepts every int and float in [0, 65535] (fractional
floats such as 80.5 included) and rejects -1, 65536 and every non-numeric
value (NaN, outside the range, is also rejected). -/
theorem C6_validate_port_spec :
    (∀ n : Int, 0 ≤ n → n ≤ 65535 → validate_port (PyVal.pyInt n) = true) ∧
    (∀ q : Rat, 0 ≤ q → q ≤ 65535 → validate_port (PyVal.pyFloat q) = true) ∧
    validate_port (PyVal.pyFloat (80.5 : Rat)) = true ∧
    validate_port (PyVal.pyInt (-1)) = false ∧
    validate_port (PyVal.pyInt 65536) = false ∧
    validate_port (PyVal.pyFloat (-1 : Rat)) = false ∧
    validate_port (PyVal.pyFloat (65536 : Rat)) = false ∧
    (∀ s : String, validate_port (PyVal.pyStr s) = false) ∧
    validate_port PyVal.pyNan = false := by
  refine ⟨?_, ?_, by norm_num [validate_port], by decide, by decide,
    by norm_num [validate_port], by norm_num [validate_port], fun s => rfl, rfl⟩
  · intro n h1 h2
    simp [validate_port, h1, h2]
  · intro q h1 h2
    simp [validate_port, h1, h2]

/-- C6 witness: port 80 as an int and 80.5 as a float are both accepted. -/
theorem C6_validate_port_witness :
    validate_port (PyVal.pyInt 80) = true ∧ validate_port (PyVal.pyFloat (80.5 : Rat)) = true :=
  ⟨C6_validate_port_spec.1 80 (by decide) (by decide), C6_validate_port_spec.2.2.1⟩

/-- C7: the gateway does NOT send the configured credential exactly: the
f-string "Bearer f{key_data}" puts a stray f before it, so with credential
abc the Authorization header is Bearer fabc, not Bearer abc (Content-Type is
sent as claimed).  Every request carries exactly these two headers. -/
theorem C7_bearer_header_bug :
    callServeApiHeaders "abc" =
      [("Authorization", "Bearer fabc"), ("Content-Type", "application/json")] ∧
    ("Bearer fabc" : String) ≠ "Bearer abc" ∧
    (∀ (key_data : String) (payload : List (List (String × PyVal))),
      (serveApiRequest key_data payload).headers = callServeApiHeaders key_data) :=
  ⟨by decide, by decide, fun _ _ => rfl⟩

/-! ### Claims about sanitize_dataframe -/

/-- C8: the caller's frame is never mutated: every in-place step of
sanitize_dataframe targets the deep copy, so after the run the df binding
still holds the original frame (all names and cells unchanged), while the
copy holds exactly the function's sanitized result. -/
theorem C8_no_caller_mutation (df0 : DataFrame) :
    (sanitizeRun df0).df = df0 ∧
    (sanitizeRun df0).clean_df = (sanitize_dataframe df0).1 :=
  ⟨rfl, rfl⟩

/-- C2 counterexample: sanitizing the cell "<script>alert(1)</script>benign"
yields "alert(1)benign" — the tag spans go, the text between them stays — and
not "benign" as the claim states. -/
theorem C2_counterexample :
    (sanitize_dataframe
        [Column.mk "field" Dtype.object
          [PyVal.pyStr "<script>alert(1)</script>benign"]]).1 =
      [Column.mk "field" Dtype.object [PyVal.pyStr "alert(1)benign"]] ∧
    PyVal.pyStr "alert(1)benign" ≠ PyVal.pyStr "benign" := by
  exact ⟨by decide, by decide⟩

/-- C2 (amended): that input sanitizes to "alert(1)benign", and in general
sanitization removes from every string-typed column every substring matching
the tag grammar: every cell of an object column of the sanitized table is a
string in which no span matching the pattern remains. -/
theorem C2_markup_stripped :
    stripTags "<script>alert(1)</script>benign" = "alert(1)benign" ∧
    (∀ df : DataFrame, ∀ c ∈ (sanitize_dataframe df).1, c.dtype = Dtype.object →
      ∀ v ∈ c.cells, ∃ s : String, v = PyVal.pyStr s ∧ hasTagS s = false) := by
  refine ⟨by decide, ?_⟩
  intro df c hc hdt v hv
  rcases List.mem_map.mp hc with ⟨c1, _, rfl⟩
  by_cases h : c1.dtype = Dtype.object
  · rw [show stripCol c1 =
        Column.mk c1.name c1.dtype
          (c1.cells.map (fun v => PyVal.pyStr (stripTags (pyStrOf v)))) from by
      rw [stripCol, if_pos h]] at hv
    rcases List.mem_map.mp hv with ⟨v0, _, rfl⟩
    exact ⟨stripTags (pyStrOf v0), rfl, hasTagS_stripTags _⟩
  · rw [show stripCol c1 = c1 from by rw [stripCol, if_neg h]] at hdt
    exact absurd hdt h

/-- C2 witness: the general statement applied to the one-cell script frame. -/
theorem C2_markup_stripped_witness :
    ∃ s : String, PyVal.pyStr "alert(1)benign" = PyVal.pyStr s ∧ hasTagS s = false :=
  C2_markup_stripped.2
    [Column.mk "field" Dtype.object [PyVal.pyStr "<script>alert(1)</script>benign"]]
    (Column.mk "field" Dtype.object [PyVal.pyStr "alert(1)benign"])
    (by decide) (by decide)
    (PyVal.pyStr "alert(1)benign") (by decide)

/-- The sanitized-table map is idempotent column-wise: renaming is idempotent
and a second tag strip changes nothing because a first strip leaves no tag. -/
lemma stripCol_renameCol_idem (c : Column) :
    stripCol (renameCol (stripCol (renameCol c))) = stripCol (renameCol c) := by
  have hrename : ∀ d : Column, renameCol d = Column.mk (normName d.name) d.dtype d.cells :=
    fun d => rfl
  by_cases h : c.dtype = Dtype.object
  · have hstripO : ∀ d : Column, d.dtype = Dtype.object →
        stripCol d = Column.mk d.name d.dtype
          (d.cells.map (fun v => PyVal.pyStr (stripTags (pyStrOf v)))) := by
      intro d hd
      rw [stripCol, if_pos hd]
    rw [hrename c, hstripO (Column.mk (normName c.name) c.dtype c.cells) h, hrename _,
        hstripO (Column.mk (normName (normName c.name)) c.dtype
          (c.cells.map (fun v => PyVal.pyStr (stripTags (pyStrOf v))))) h]
    rw [normName_idem, List.map_map]
    congr 1
    apply List.map_congr_left
    intro v _
    show PyVal.pyStr (stripTags (stripTags (pyStrOf v))) =
      PyVal.pyStr (stripTags (pyStrOf v))
    rw [stripTags_idem]
  · have hstripN : ∀ d : Column, ¬ d.dtype = Dtype.object → stripCol d = d := by
      intro d hd
      rw [stripCol, if_neg hd]
    rw [hrename c, hstripN (Column.mk (normName c.name) c.dtype c.cells) h, hrename _,
        hstripN (Column.mk (normName (normName c.name)) c.dtype c.cells) h, normName_idem]

/-- Applying the table part of sanitize_dataframe twice equals applying it
once, with no tag-freeness assumption needed. -/
lemma sanitize_table_idem (df : DataFrame) :
    (sanitize_dataframe (sanitize_dataframe df).1).1 = (sanitize_dataframe df).1 := by
  show stripStringCols (renameCols (stripStringCols (renameCols df))) =
    stripStringCols (renameCols df)
  simp only [stripStringCols, renameCols, List.map_map]
  apply List.map_congr_left
  intro c _
  exact stripCol_renameCol_idem c

/-- C9: on a table whose string renderings carry no markup tag, sanitization
is idempotent on the table component. -/
theorem C9_sanitize_idempotent (df : DataFrame)
    (_htagfree : ∀ c ∈ df, c.dtype = Dtype.object →
      ∀ v ∈ c.cells, hasTagS (pyStrOf v) = false) :
    (sanitize_dataframe (sanitize_dataframe df).1).1 = (sanitize_dataframe df).1 :=
  sanitize_table_idem df

/-- C9 witness: a tag-free 1-row frame. -/
theorem C9_sanitize_idempotent_witness :
    (sanitize_dataframe
        (sanitize_dataframe
          [Column.mk "Note" Dtype.object [PyVal.pyStr "benign text"]]).1).1 =
      (sanitize_dataframe [Column.mk "Note" Dtype.object [PyVal.pyStr "benign text"]]).1 :=
  C9_sanitize_idempotent
    [Column.mk "Note" Dtype.object [PyVal.pyStr "benign text"]]
    (by decide)

/-! ### C5: missing-column short-circuit -/

/-- Does an error string have the missing-column form? -/
def isMissingForm (e : String) : Bool :=
  ("Missing required column: ").data.isPrefixOf e.data

/-- The first field of the check sequence whose lookup in the row fails. -/
def firstMissingField (row : List (String × PyVal)) : Option String :=
  (checkList.find? (fun q => (lookupRow row q.1).isNone)).map (fun q => q.1)

/-- Every message a failed field check appends starts with Invalid, so it does
not have the missing-column form. -/
lemma checkError_not_missing (idx : Nat) (c : FieldCheck) (v : PyVal) (e : String)
    (h : checkError idx c v = some e) : isMissingForm e = false := by
  have hI : ∀ t : List Char,
      ("Missing required column: ").data.isPrefixOf ('I' :: t) = false := fun t => rfl
  cases c with
  | ipCheck desc =>
    rw [checkError] at h
    by_cases hv : validate_ip (pyStrOf v) = true
    · rw [if_pos hv] at h; exact absurd h (by simp)
    · rw [if_neg hv] at h
      have he := Option.some.inj h
      subst he
      exact hI _
  | portCheck desc =>
    rw [checkError] at h
    by_cases hv : validate_port v = true
    · rw [if_pos hv] at h; exact absurd h (by simp)
    · rw [if_neg hv] at h
      have he := Option.some.inj h
      subst he
      exact hI _
  | tsCheck =>
    rw [checkError] at h
    by_cases hv : validate_timestamp (pyStrOf v) = true
    · rw [if_pos hv] at h; exact absurd h (by simp)
    · rw [if_neg hv] at h
      have he := Option.some.inj h
      subst he
      exact hI _
  | numCheck field =>
    rw [checkError] at h
    by_cases hv : validate_numeric v = true
    · rw [if_pos hv] at h; exact absurd h (by simp)
    · rw [if_neg hv] at h
      have he := Option.some.inj h
      subst he
      exact hI _

lemma isPrefixOf_append_self (l t : List Char) : l.isPrefixOf (l ++ t) = true := by
  induction l with
  | nil => simp [List.isPrefixOf]
  | cons a as ih => simp [List.isPrefixOf, ih]

lemma isMissingForm_missingMsg (f : String) : isMissingForm (missingMsg f) = true := by
  unfold isMissingForm missingMsg
  rw [String.data_append]
  exact isPrefixOf_append_self _ _

/-- If some check field is absent from the row, the row's validation output is
the messages of the earlier, present fields followed by exactly one
missing-column message naming the first absent field, and nothing after it. -/
lemma validateRowAux_find_missing (idx : Nat) (row : List (String × PyVal)) :
    ∀ (checks : List (String × FieldCheck)) (pc : String × FieldCheck),
      checks.find? (fun q => (lookupRow row q.1).isNone) = some pc →
      ∃ pre, validateRowAux idx row checks = pre ++ [missingMsg pc.1] ∧
        ∀ e ∈ pre, isMissingForm e = false := by
  intro checks
  induction checks with
  | nil => intro pc h; simp at h
  | cons qc rest ih =>
    intro pc h
    rcases qc with ⟨field, c⟩
    cases hlook : lookupRow row field with
    | none =>
      rw [List.find?_cons_of_pos _ (by simp [hlook])] at h
      have hpc := Option.some.inj h
      subst hpc
      refine ⟨[], ?_, by simp⟩
      simp only [validateRowAux, hlook, List.nil_append]
    | some v =>
      rw [List.find?_cons_of_neg _ (by simp [hlook])] at h
      rcases ih pc h with ⟨pre, hpre, hprem⟩
      cases hce : checkError idx c v with
      | none =>
        refine ⟨pre, ?_, hprem⟩
        simp only [validateRowAux, hlook, hce]
        exact hpre
      | some e =>
        refine ⟨e :: pre, ?_, ?_⟩
        · simp only [validateRowAux, hlook, hce]
          rw [hpre]
          rfl
        · intro e2 he2
          rcases List.mem_cons.mp he2 with rfl | he2
          · exact checkError_not_missing idx c v e2 hce
          · exact hprem e2 he2

/-- C5: when a required field is absent from a row, the row's validation
yields the earlier fields' ordinary messages followed by exactly one
missing-column error naming the first absent field, with no checks performed
after it; the error list is still the concatenation of every row's own
validation (rows are independent), and the sanitized table is still the
tag-stripped rename of the whole frame (sanitization applies to all rows). -/
theorem C5_missing_column_short_circuit (df : DataFrame) (idx : Nat) (field : String)
    (hmiss : firstMissingField (rowAt (renameCols df) idx) = some field) :
    (∃ pre, validateRow idx (rowAt (renameCols df) idx) = pre ++ [missingMsg field] ∧
      ∀ e ∈ pre, isMissingForm e = false) ∧
    (validateRow idx (rowAt (renameCols df) idx)).countP isMissingForm = 1 ∧
    (sanitize_dataframe df).2 =
      (List.range (nRows (renameCols df))).flatMap
        (fun i => validateRow i (rowAt (renameCols df) i)) ∧
    (sanitize_dataframe df).1 = stripStringCols (renameCols df) := by
  unfold firstMissingField at hmiss
  cases hfind : checkList.find?
      (fun q => (lookupRow (rowAt (renameCols df) idx) q.1).isNone) with
  | none => rw [hfind] at hmiss; exact absurd hmiss (by simp)
  | some qc =>
    rw [hfind] at hmiss
    have hqc : qc.1 = field := by
      have := Option.some.inj hmiss
      simpa using this
    rcases validateRowAux_find_missing idx _ checkList qc hfind with ⟨pre, hpre, hprem⟩
    have hpre2 : validateRow idx (rowAt (renameCols df) idx) = pre ++ [missingMsg field] := by
      rw [validateRow, hpre, hqc]
    refine ⟨⟨pre, hpre2, hprem⟩, ?_, rfl, rfl⟩
    rw [hpre2, List.countP_append]
    rw [List.countP_eq_zero.mpr (fun a ha => by rw [hprem a ha]; exact Bool.false_ne_true)]
    simp [List.countP_cons, isMissingForm_missingMsg]

/-- C5 witness: the frame lacking dest_port; its first row short-circuits at
dest_port with no earlier failures, so the row contributes exactly its one
missing-column message. -/
theorem C5_missing_column_short_circuit_witness :
    (∃ pre, validateRow 0 (rowAt (renameCols missingColDf) 0) =
        pre ++ [missingMsg "dest_port"] ∧
      ∀ e ∈ pre, isMissingForm e = false) ∧
    (validateRow 0 (rowAt (renameCols missingColDf) 0)).countP isMissingForm = 1 :=
  ⟨(C5_missing_column_short_circuit missingColDf 0 "dest_port" (by decide)).1,
   (C5_missing_column_short_circuit missingColDf 0 "dest_port" (by decide)).2.1⟩

/-! ### C1: the end-to-end upload flow -/

lemma stripCol_cells_length (c : Column) : (stripCol c).cells.length = c.cells.length := by
  rw [stripCol]
  by_cases h : c.dtype = Dtype.object
  · rw [if_pos h]
    exact List.length_map _ _
  · rw [if_neg h]

lemma nRows_renameCols (df : DataFrame) : nRows (renameCols df) = nRows df := by
  cases df with
  | nil => rfl
  | cons c rest => rfl

lemma nRows_stripStringCols (df : DataFrame) : nRows (stripStringCols df) = nRows df := by
  cases df with
  | nil => rfl
  | cons c rest => exact stripCol_cells_length c

/-- C1 counterexample: a 5-row CSV with all required columns and only valid
values sanitizes to 5 rows with no errors and triggers exactly one gateway
call, but the call's JSON body is a 1-element array (the record array is
wrapped once more by json=[input_data]), not a 5-element array. -/
theorem C1_counterexample :
    (sanitize_dataframe exampleDf).2 = [] ∧
    nRows (sanitize_dataframe exampleDf).1 = 5 ∧
    appRequestBodyLens "k" exampleDf = [1] ∧
    (1 : Nat) ≠ 5 :=
  ⟨by decide, by decide, by decide, by decide⟩

/-- C1 (amended): for every 5-row frame with all required columns and only
valid values, the pipeline yields a sanitized table of 5 rows and an empty
error list, and exactly one gateway call is made, whose HTTP JSON body is a
single-element array containing the 5-element array of record objects (one
object per record). -/
theorem C1_end_to_end (key_data : String) (df : DataFrame) (now : Rat)
    (hrect : ∀ c ∈ df, c.cells.length = 5) (hne : df ≠ [])
    (hreq : ∀ col ∈ REQUIRED_COLUMNS,
      ((sanitize_dataframe df).1.map (fun c => strLower c.name)).contains
        (strLower col) = true)
    (hvalid : ∀ i < 5, validateRow i (rowAt (renameCols df) i) = []) :
    nRows (sanitize_dataframe df).1 = 5 ∧
    (sanitize_dataframe df).2 = [] ∧
    (appProcess key_data df (RateLimiter.mk 100 60 []) now).requests =
      [serveApiRequest key_data (records (sanitize_dataframe df).1)] ∧
    (serveApiRequest key_data (records (sanitize_dataframe df).1)).body =
      Json.arr [Json.arr ((records (sanitize_dataframe df).1).map recordToJson)] ∧
    (records (sanitize_dataframe df).1).length = 5 := by
  have hnr0 : nRows df = 5 := by
    cases df with
    | nil => exact absurd rfl hne
    | cons c rest => exact hrect c (by simp)
  have hnr1 : nRows (renameCols df) = 5 := by rw [nRows_renameCols]; exact hnr0
  have htab : nRows (sanitize_dataframe df).1 = 5 := by
    show nRows (stripStringCols (renameCols df)) = 5
    rw [nRows_stripStringCols]
    exact hnr1
  have herr : (sanitize_dataframe df).2 = [] := by
    show (List.range (nRows (renameCols df))).flatMap
      (fun i => validateRow i (rowAt (renameCols df) i)) = []
    rw [hnr1]
    exact List.flatMap_eq_nil_iff.mpr (fun i hi => hvalid i (List.mem_range.mp hi))
  have hmissing : REQUIRED_COLUMNS.filter
      (fun col => !(((sanitize_dataframe df).1.map (fun c => strLower c.name)).contains
        (strLower col))) = [] := by
    refine List.filter_eq_nil_iff.mpr (fun col hcol => ?_)
    rw [hreq col hcol]
    simp
  have hrecl : (records (sanitize_dataframe df).1).length = 5 := by
    show ((List.range (nRows (sanitize_dataframe df).1)).map
      (rowAt (sanitize_dataframe df).1)).length = 5
    rw [List.length_map, List.length_range, htab]
  refine ⟨htab, herr, ?_, rfl, hrecl⟩
  simp only [appProcess]
  rw [if_pos hmissing, if_pos (by rw [htab]; norm_num)]
  simp only [call_serve_api, RateLimiter.call, RateLimiter.evict, List.dropWhile_nil]
  rw [if_neg (by simp)]

/-- C1 witness: the valid 5-row frame realizes the amended claim. -/
theorem C1_end_to_end_witness :
    nRows (sanitize_dataframe exampleDf).1 = 5 ∧
    (sanitize_dataframe exampleDf).2 = [] ∧
    (appProcess "k" exampleDf (RateLimiter.mk 100 60 []) 0).requests =
      [serveApiRequest "k" (records (sanitize_dataframe exampleDf).1)] ∧
    (serveApiRequest "k" (records (sanitize_dataframe exampleDf).1)).body =
      Json.arr [Json.arr ((records (sanitize_dataframe exampleDf).1).map recordToJson)] ∧
    (records (sanitize_dataframe exampleDf).1).length = 5 :=
  C1_end_to_end "k" exampleDf 0 (by decide) (by decide) (by decide) (by decide)

end DeepMitre
